import Mathlib

/-!
Verification development for the devblogging service (src/index.js).

The file embeds the data model and the request handlers of the service as
executable Lean definitions and proves the stated properties about them.
External collaborators (the document store, the password hasher, the token
library, the object storage provider) are modelled at their interface
boundary; everything that lives in src/index.js is translated directly from
that source.
-/

namespace DevBlog

/-- Identity claims embedded in a bearer token, as signed by the signup and
login handlers: an identity reference and a handle (src/index.js lines
135-139 and 162-166). -/
structure TokenClaims where
  id : Nat
  username : String
deriving DecidableEq

/-- Modelled from the spec (section 4.2): a signed bearer token is a
self-contained value carrying its claims, the secret it was signed with and
an absolute expiry time. Signature verification succeeds exactly when the
token is checked against the secret it was signed with; forgery and hash
collisions are out of model. -/
structure Token where
  claims : TokenClaims
  signedWith : String
  exp : Nat
deriving DecidableEq

/-- Modelled from the spec (section 4.2): signing embeds the claims and an
absolute expiry equal to the signing time plus the ttl. -/
def jwtSign (c : TokenClaims) (secret : String) (now ttl : Nat) : Token :=
  ⟨c, secret, now + ttl⟩

/-- Modelled from the spec (section 4.2): verification succeeds iff the
signature verifies against the given secret and the wall clock time at the
instant of the check is strictly before the embedded expiry. -/
def jwtVerifyTok (t : Token) (secret : String) (now : Nat) : Option TokenClaims :=
  if t.signedWith = secret ∧ now < t.exp then some t.claims else none

/-- The signing secret used by the server: the configured JWT_SECRET, with
the hard coded fallback constant when the configuration is absent
(src/index.js lines 110, 137 and 164; the JS or-operator also falls back on
an empty configured string). -/
def serverSecret (env : Option String) : String :=
  match env with
  | none => "fallback_secret"
  | some s => if s = "" then "fallback_secret" else s

/-- Token issuance as performed by the signup and login handlers: a 24 hour
ttl, in seconds (src/index.js lines 135-139). -/
def issueToken (env : Option String) (c : TokenClaims) (now : Nat) : Token :=
  jwtSign c (serverSecret env) now 86400

/-- Splitting a character list on a separator character, keeping empty
pieces, exactly as the JS String.split with a one character separator
behaves (the empty string yields the single piece ""). -/
def splitOnCharAux (sep : Char) : List Char → List Char → List String
  | [], acc => [String.mk acc.reverse]
  | c :: cs, acc =>
      if c = sep then String.mk acc.reverse :: splitOnCharAux sep cs []
      else splitOnCharAux sep cs (c :: acc)

/-- JS String.split with a one character separator. -/
def splitOnChar (s : String) (sep : Char) : List String :=
  splitOnCharAux sep s.toList []

/-- getTokenFromHeader (src/index.js lines 94-100): an absent or empty
header yields nothing; otherwise the header is split on the space character
and the second part is the token exactly when there are two parts. -/
def getTokenFromHeader (header : Option String) : Option String :=
  match header with
  | none => none
  | some h =>
      if h = "" then none
      else
        let parts := splitOnChar h ' '
        if parts.length = 2 then parts.get? 1 else none

/-- Verification of a token carried as a wire string: decode is the ambient
injection from wire strings to the signed tokens they encode (none for a
string that is not a valid encoding), and the decoded token is then checked
as in jwtVerifyTok. Models jwt.verify at src/index.js line 110. -/
def jwtVerifyStr (decode : String → Option Token) (secret : String) (now : Nat)
    (s : String) : Option TokenClaims :=
  match decode s with
  | none => none
  | some t => jwtVerifyTok t secret now

/-- authenticateToken middleware (src/index.js lines 103-117): 401 when no
token could be extracted from the header, and also when the extracted token
is the empty string, since the JS falsy test on the token covers both null
and the empty string; 403 when verification of the extracted token fails;
otherwise the verified claims are attached to the request for the
downstream handler. -/
def authenticateToken (decode : String → Option Token) (secret : String) (now : Nat)
    (header : Option String) : Except Nat TokenClaims :=
  match getTokenFromHeader header with
  | none => Except.error 401
  | some s =>
      if s = "" then Except.error 401
      else
        match jwtVerifyStr decode secret now s with
        | none => Except.error 403
        | some c => Except.ok c

/-- Modelled from the spec (section 4.1): a salted one way digest of a
password. The model keeps the hashed plaintext so that verification can be
decided; one-wayness is out of model. -/
structure Digest where
  salt : Nat
  source : String
deriving DecidableEq

/-- Modelled from the spec (section 4.1): hashing with a work factor. -/
def bcryptHash (plaintext : String) (saltRounds : Nat) : Digest :=
  ⟨saltRounds, plaintext⟩

/-- Modelled from the spec (section 4.1): verification succeeds exactly when
the digest was produced from the same plaintext. -/
def bcryptCompare (plaintext : String) (d : Digest) : Bool :=
  d.source == plaintext

/-- A stored identity record (User schema, src/index.js lines 52-58). -/
structure User where
  _id : Nat
  username : String
  email : String
  password : Digest
deriving DecidableEq

/-- A stored article record (BlogPost schema, src/index.js lines 61-69).
The author field is the identity reference of the owning identity. -/
structure BlogPost where
  _id : String
  title : String
  subtitle : String
  content : String
  imageUrl : String
  author : Nat
deriving DecidableEq

/-- The durable store: identity records, article records and the fresh id
counters the model uses to generate new identifiers. -/
structure DB where
  users : List User
  posts : List BlogPost
  nextUid : Nat
  nextPid : Nat
deriving DecidableEq

/-- A hexadecimal digit character for values below 16. -/
def hexDigitChar (n : Nat) : Char :=
  if n < 10 then Char.ofNat (48 + n) else Char.ofNat (87 + n % 16)

/-- Modelled from the spec (section 6, record store boundary): the store
assigns each new document a 24 character hexadecimal object identifier. -/
def objIdOfNat (n : Nat) : String :=
  String.mk ((List.range 24).map (fun i => hexDigitChar (n / 16 ^ (23 - i) % 16)))

/-- Modelled from the spec (record store boundary): a well formed store
object identifier is a 24 character hexadecimal string (or a legacy 12
character string); a lookup with any other string throws a cast error. -/
def validObjectId (s : String) : Bool :=
  (s.length == 24 &&
    s.toList.all (fun c => c.isDigit || ('a' ≤ c && c ≤ 'f') || ('A' ≤ c && c ≤ 'F')))
  || s.length == 12

/-- BlogPost.findById: throws (error) on a malformed identifier, otherwise
returns the matching document when one exists. -/
def findPost (db : DB) (id : String) : Except String (Option BlogPost) :=
  if validObjectId id then Except.ok (db.posts.find? (fun p => p._id == id))
  else Except.error "CastError"

/-- An in-memory uploaded file as multer presents it: the content type
reported by the client and the buffer size in bytes. -/
structure UploadFile where
  mimetype : String
  size : Nat
deriving DecidableEq

/-- Whether the first list is an initial segment of the second. -/
def isInitialSegment : List Char → List Char → Bool
  | [], _ => true
  | _ :: _, [] => false
  | a :: as, b :: bs => a == b && isInitialSegment as bs

/-- JS String.startsWith, over the character lists of the strings. -/
def strStartsWith (s pre : String) : Bool :=
  isInitialSegment pre.toList s.toList

/-- fileFilter of the multer configuration (src/index.js lines 42-48): only
content types that indicate an image pass. -/
def fileFilter (f : UploadFile) : Bool :=
  strStartsWith f.mimetype "image/"

/-- The multer fileSize limit of 5 * 1024 * 1024 bytes (src/index.js lines
39-41). -/
def fileSizeLimit : Nat := 5 * 1024 * 1024

/-- Result of running the multer middleware on a request. -/
inductive MulterResult where
  | accepted (file : Option UploadFile)
  | rejected
deriving DecidableEq

/-- upload.single applied to the optional image field: a request without a
file passes through with no file; a file is accepted exactly when the
fileFilter approves its content type and its size stays within the limit,
and otherwise the middleware errors before the route handler ever runs
(src/index.js lines 37-49 and 221, 254). -/
def multerSingle (file? : Option UploadFile) : MulterResult :=
  match file? with
  | none => MulterResult.accepted none
  | some f =>
      if fileFilter f then
        if f.size ≤ fileSizeLimit then MulterResult.accepted (some f)
        else MulterResult.rejected
      else MulterResult.rejected

/-- Whether the create or update handler hands the request buffer to the
object storage provider: only when multer accepted the request and a file
is actually present (src/index.js lines 227-229 and 270-272). -/
def cloudinaryInvoked (file? : Option UploadFile) : Bool :=
  match multerSingle file? with
  | MulterResult.rejected => false
  | MulterResult.accepted none => false
  | MulterResult.accepted (some _) => true

/-- Outcome of the external object storage call for one request: the
provider either resolves with a URL or rejects; uploadToCloudinary
(src/index.js lines 72-91) resolves or rejects accordingly. -/
inductive UploadOutcome where
  | ok (url : String)
  | fail
deriving DecidableEq

/-- The body and file of an article write request after parsing: each text
field is absent or a string, and the optional in-memory image file. -/
structure WriteReq where
  title : Option String
  subtitle : Option String
  content : Option String
  file : Option UploadFile
deriving DecidableEq

/-- The mongoose required check for a string path: the value is present and
nonempty (BlogPost requires title and content, src/index.js lines 62-64). -/
def requiredOk (v : Option String) : Bool :=
  match v with
  | none => false
  | some s => s != ""

/-- POST /api/posts handler (src/index.js lines 221-252), running after the
authentication gate and multer: when a file is present, a failing upload
returns 500 before anything is written; otherwise the new document is
saved, and a document that fails schema validation makes save throw, which
the generic catch reports as 500. On success the new article is appended
with the caller as author. The construction and save of the new document is
split out as savePost. -/
def savePost (db : DB) (uid : Nat) (req : WriteReq) (imageUrl : String) : Nat × DB :=
  if requiredOk req.title && requiredOk req.content then
    (201, { db with
            posts := db.posts ++
              [⟨objIdOfNat db.nextPid, req.title.getD "", req.subtitle.getD "",
                req.content.getD "", imageUrl, uid⟩],
            nextPid := db.nextPid + 1 })
  else (500, db)

def createPostHandler (db : DB) (uid : Nat) (req : WriteReq) (upl : UploadOutcome) :
    Nat × DB :=
  match req.file with
  | none => savePost db uid req ""
  | some _ =>
      match upl with
      | UploadOutcome.fail => (500, db)
      | UploadOutcome.ok url => savePost db uid req url

/-- findByIdAndUpdate applied to the store: the first document whose
identifier matches is rewritten by f; every other document is untouched. -/
def updateFirst (posts : List BlogPost) (id : String) (f : BlogPost → BlogPost) :
    List BlogPost :=
  match posts with
  | [] => []
  | p :: ps => if p._id == id then f p :: ps else p :: updateFirst ps id f

/-- PUT /api/posts/:id handler (src/index.js lines 254-290): a malformed id
makes findById throw (500); a missing document is 404; a caller other than
the author is 403; with a file, a failing upload aborts with 500 and
nothing is written; otherwise findByIdAndUpdate rewrites the document,
where an absent text field is dropped from the update object by the driver
and therefore keeps its stored value, and the image reference is the fresh
upload result when a file was sent and the stored one otherwise. -/
def updatePostHandler (db : DB) (uid : Nat) (id : String) (req : WriteReq)
    (upl : UploadOutcome) : Nat × DB :=
  match findPost db id with
  | Except.error _ => (500, db)
  | Except.ok none => (404, db)
  | Except.ok (some post) =>
      if post.author ≠ uid then (403, db)
      else
        let apply : String → Nat × DB := fun imageUrl =>
          (200, { db with posts := updateFirst db.posts id (fun p =>
            { p with
              title := req.title.getD p.title,
              subtitle := req.subtitle.getD p.subtitle,
              content := req.content.getD p.content,
              imageUrl := imageUrl }) })
        match req.file with
        | none => apply post.imageUrl
        | some _ =>
            match upl with
            | UploadOutcome.fail => (500, db)
            | UploadOutcome.ok url => apply url

/-- findByIdAndDelete applied to the store: the first document whose
identifier matches is removed. -/
def deleteFirst (posts : List BlogPost) (id : String) : List BlogPost :=
  match posts with
  | [] => []
  | p :: ps => if p._id == id then ps else p :: deleteFirst ps id

/-- DELETE /api/posts/:id handler (src/index.js lines 292-310). -/
def deletePostHandler (db : DB) (uid : Nat) (id : String) : Nat × DB :=
  match findPost db id with
  | Except.error _ => (500, db)
  | Except.ok none => (404, db)
  | Except.ok (some post) =>
      if post.author ≠ uid then (403, db)
      else (200, { db with posts := deleteFirst db.posts id })

/-- GET /api/posts/:id handler (src/index.js lines 208-219), reduced to the
status it reports: 500 when the lookup throws on a malformed id, 404 when
no document matches, 200 otherwise. -/
def getPostHandler (db : DB) (id : String) : Nat :=
  match findPost db id with
  | Except.error _ => 500
  | Except.ok none => 404
  | Except.ok (some _) => 200

/-- POST /api/auth/signup handler (src/index.js lines 120-150): 400 when a
user with the same email or username already exists, otherwise the user is
stored with the bcrypt digest of the password and a fresh 24 hour token is
issued for the new identity. -/
def signupHandler (db : DB) (username email password : String) (env : Option String)
    (now : Nat) : Nat × DB × Option Token :=
  if db.users.any (fun u => u.email == email || u.username == username) then
    (400, db, none)
  else
    let newUser : User := ⟨db.nextUid, username, email, bcryptHash password 10⟩
    let tok := issueToken env ⟨newUser._id, newUser.username⟩ now
    (201,
     { db with users := db.users ++ [newUser], nextUid := db.nextUid + 1 },
     some tok)

/-- POST /api/auth/login handler (src/index.js lines 152-177): 400 when no
user has the email or the password does not verify against the stored
digest, otherwise a fresh 24 hour token is issued for the stored identity. -/
def loginHandler (db : DB) (email password : String) (env : Option String)
    (now : Nat) : Nat × Option Token :=
  match db.users.find? (fun u => u.email == email) with
  | none => (400, none)
  | some u =>
      if bcryptCompare password u.password then
        (200, some (issueToken env ⟨u._id, u.username⟩ now))
      else (400, none)

/-- Modelled from the spec (section 4.3 wording): the maximal whitespace
free words of a character list. This is the spec side reading of a header
split into whitespace separated parts, kept only to compare the spec
wording against the code side getTokenFromHeader. -/
def whitespaceWords : List Char → List Char → List String
  | [], [] => []
  | [], acc => [String.mk acc.reverse]
  | c :: cs, acc =>
      if c.isWhitespace then
        match acc with
        | [] => whitespaceWords cs []
        | _ => String.mk acc.reverse :: whitespaceWords cs []
      else whitespaceWords cs (c :: acc)

/-- Modelled from the spec (section 4.3 wording): the whitespace separated
parts of a header string. -/
def whitespaceParts (s : String) : List String :=
  whitespaceWords s.toList []

/-! Sample values used by the witness theorems. -/

/-- A sample signed token whose wire encoding is the string T. -/
def tokenT : Token := ⟨⟨1, "alice"⟩, "fallback_secret", 100⟩

/-- A sample wire decoding: the string T encodes tokenT, nothing else is a
valid encoding. -/
def decodeT : String → Option Token :=
  fun s => if s = "T" then some tokenT else none

/-- A sample well formed object identifier. -/
def pid0 : String := "aaaaaaaaaaaaaaaaaaaaaaaa"

/-- A sample stored article owned by identity 1. -/
def post0 : BlogPost := ⟨pid0, "Old title", "Old subtitle", "Old body", "https://img.example/old.png", 1⟩

/-- A sample store holding exactly post0. -/
def db0 : DB := ⟨[], [post0], 0, 1⟩

/-- A sample in-memory image file. -/
def filePng : UploadFile := ⟨"image/png", 1024⟩

/-- A sample write request that carries an image file. -/
def reqWithFile : WriteReq := ⟨some "Hi", none, some "Body", some filePng⟩

/-- A sample write request with no image file. -/
def reqNoFile : WriteReq := ⟨some "Hi", none, some "Body", none⟩

/-! ## Claims -/

/-- Claim C3: a bearer token is accepted by verification iff its signature
verifies against the server signing secret (the configured secret, or the
hard coded fallback constant when the configuration is absent) and the wall
clock time at the check is before its expiry; and the expiry embedded at
issuance equals the issuance time plus 24 hours. -/
theorem c3_token_acceptance :
    (∀ (env : Option String) (t : Token) (now : Nat),
        (jwtVerifyTok t (serverSecret env) now).isSome = true
          ↔ (t.signedWith = serverSecret env ∧ now < t.exp))
  ∧ (∀ (env : Option String) (c : TokenClaims) (now : Nat),
        (issueToken env c now).exp = now + 24 * 60 * 60) := by
  constructor
  · intro env t now
    unfold jwtVerifyTok
    split <;> simp_all
  · intro env c now
    rfl

/-- Claim C4 counterexample: the header built from the word Bearer, a tab
and the token T has exactly two whitespace separated parts and carries a
token that verifies, yet the gate rejects the request with 401, because
getTokenFromHeader splits the header on the space character only. -/
theorem c4_counterexample :
    (whitespaceParts "Bearer\tT").length = 2
  ∧ jwtVerifyStr decodeT "fallback_secret" 0 "T" = some ⟨1, "alice"⟩
  ∧ authenticateToken decodeT "fallback_secret" 0 (some "Bearer\tT") = Except.error 401 :=
  ⟨rfl, rfl, rfl⟩

/-- Claim C4 as amended: the gate fails to extract a token exactly when the
header is absent or does not split on the space character into exactly two
parts, and then rejects with 401; an extracted empty string token is also
rejected with 401 by the falsy test, before verification; for a nonempty
extracted token, failed verification rejects with 403 and successful
verification attaches the verified claims for the downstream handler. -/
theorem c4_gate_amended :
    ∀ (decode : String → Option Token) (secret : String) (now : Nat)
      (header : Option String),
      (getTokenFromHeader header = none ↔
        (header = none ∨ ∀ h, header = some h → (splitOnChar h ' ').length ≠ 2))
      ∧ (getTokenFromHeader header = none →
          authenticateToken decode secret now header = Except.error 401)
      ∧ (getTokenFromHeader header = some "" →
          authenticateToken decode secret now header = Except.error 401)
      ∧ (∀ s, getTokenFromHeader header = some s → s ≠ "" →
          (jwtVerifyStr decode secret now s = none →
            authenticateToken decode secret now header = Except.error 403)
          ∧ (∀ c, jwtVerifyStr decode secret now s = some c →
              authenticateToken decode secret now header = Except.ok c)) := by
  intro decode secret now header
  refine ⟨?_, ?_, ?_, ?_⟩
  · cases header with
    | none => simp [getTokenFromHeader]
    | some h =>
        by_cases hemp : h = ""
        · subst hemp
          simp [getTokenFromHeader]
          decide
        · by_cases hlen : (splitOnChar h ' ').length = 2
          · have hget : (splitOnChar h ' ').get? 1 ≠ none := by
              intro hc
              rw [List.get?_eq_none] at hc
              omega
            have heq : getTokenFromHeader (some h) = (splitOnChar h ' ').get? 1 := by
              simp [getTokenFromHeader, hemp, hlen]
            rw [heq]
            constructor
            · intro hc
              exact absurd hc hget
            · rintro (h1 | h2)
              · exact Option.noConfusion h1
              · exact absurd hlen (h2 h rfl)
          · have heq : getTokenFromHeader (some h) = none := by
              simp [getTokenFromHeader, hemp, hlen]
            rw [heq]
            simp only [true_iff]
            right
            intro h' hh'
            cases hh'
            exact hlen
  · intro hnone
    simp [authenticateToken, hnone]
  · intro hemp
    simp [authenticateToken, hemp]
  · intro s hsome hne
    constructor
    · intro hver
      simp [authenticateToken, hsome, hne, hver]
    · intro c hver
      simp [authenticateToken, hsome, hne, hver]

/-- Claim C4 witness: a missing header is a 401, a header whose extracted
token is the empty string is a 401 before verification, a header carrying a
token that does not verify is a 403, and a well formed header carrying the
sample token is accepted with its claims. -/
theorem c4_witness :
    authenticateToken decodeT "fallback_secret" 0 none = Except.error 401
  ∧ authenticateToken decodeT "fallback_secret" 0 (some "Bearer ") = Except.error 401
  ∧ authenticateToken decodeT "fallback_secret" 0 (some "Bearer X") = Except.error 403
  ∧ authenticateToken decodeT "fallback_secret" 0 (some "Bearer T") = Except.ok ⟨1, "alice"⟩ :=
  ⟨(c4_gate_amended decodeT "fallback_secret" 0 none).2.1 rfl,
   (c4_gate_amended decodeT "fallback_secret" 0 (some "Bearer ")).2.2.1 rfl,
   (((c4_gate_amended decodeT "fallback_secret" 0 (some "Bearer X")).2.2.2 "X" rfl)
      (by decide)).1 rfl,
   (((c4_gate_amended decodeT "fallback_secret" 0 (some "Bearer T")).2.2.2 "T" rfl)
      (by decide)).2 ⟨1, "alice"⟩ rfl⟩

/-- Claim C8: the multer step validates before any hand off to object
storage: a file whose content type does not indicate an image is rejected,
a file whose buffer exceeds the 5 MiB ceiling is rejected, and the buffer
is handed to the storage provider exactly when both checks pass. -/
theorem c8_upload_validation :
    ∀ f : UploadFile,
      (fileFilter f = false → multerSingle (some f) = MulterResult.rejected)
      ∧ (fileSizeLimit < f.size → multerSingle (some f) = MulterResult.rejected)
      ∧ cloudinaryInvoked (some f) = (fileFilter f && decide (f.size ≤ fileSizeLimit)) := by
  intro f
  refine ⟨?_, ?_, ?_⟩
  · intro h
    simp [multerSingle, h]
  · intro h
    by_cases hf : fileFilter f <;>
      simp [multerSingle, hf, Nat.not_le.mpr h]
  · by_cases hf : fileFilter f <;> by_cases hs : f.size ≤ fileSizeLimit <;>
      simp [cloudinaryInvoked, multerSingle, hf, hs]

/-- Claim C8 witness: a text file is rejected, an oversized image is
rejected, and a small image is handed to storage. -/
theorem c8_witness :
    (fileFilter ⟨"text/plain", 10⟩ = false
      ∧ multerSingle (some ⟨"text/plain", 10⟩) = MulterResult.rejected)
  ∧ (fileSizeLimit < 6000000
      ∧ multerSingle (some ⟨"image/png", 6000000⟩) = MulterResult.rejected)
  ∧ cloudinaryInvoked (some filePng) = (fileFilter filePng && decide (filePng.size ≤ fileSizeLimit)) :=
  ⟨⟨rfl, (c8_upload_validation ⟨"text/plain", 10⟩).1 rfl⟩,
   ⟨by decide, (c8_upload_validation ⟨"image/png", 6000000⟩).2.1 (by decide)⟩,
   (c8_upload_validation filePng).2.2⟩

/-! ## Helper lemmas -/

/-- A successful findPost means the identifier is well formed and the plain
list lookup gives the same result. -/
theorem findPost_ok {db : DB} {id : String} {r : Option BlogPost}
    (h : findPost db id = Except.ok r) :
    validObjectId id = true ∧ db.posts.find? (fun p => p._id == id) = r := by
  by_cases hv : validObjectId id = true
  · refine ⟨hv, ?_⟩
    unfold findPost at h
    rw [if_pos hv] at h
    exact Except.ok.inj h
  · unfold findPost at h
    rw [if_neg hv] at h
    exact Except.noConfusion h

/-- Rewriting the first matching document commutes with lookup when the
rewrite preserves the identifier. -/
theorem find?_updateFirst (posts : List BlogPost) (id : String)
    (f : BlogPost → BlogPost) (hpid : ∀ p, (f p)._id = p._id) :
    (updateFirst posts id f).find? (fun p => p._id == id) =
      (posts.find? (fun p => p._id == id)).map f := by
  induction posts with
  | nil => rfl
  | cons p ps ih =>
      by_cases hp : (p._id == id) = true
      · simp [updateFirst, hp, List.find?, hpid p]
      · simp [updateFirst, hp, List.find?, ih]

/-- Rewriting the first matching document preserves any projection that the
rewrite does not touch, across the whole store. -/
theorem map_updateFirst {β : Type} (posts : List BlogPost) (id : String)
    (f : BlogPost → BlogPost) (g : BlogPost → β) (h : ∀ p, g (f p) = g p) :
    (updateFirst posts id f).map g = posts.map g := by
  induction posts with
  | nil => rfl
  | cons p ps ih =>
      by_cases hp : (p._id == id) = true
      · simp [updateFirst, hp, h]
      · simp [updateFirst, hp, ih]

/-- Claim C1: when an image buffer accompanies a create or an update and
the upload step fails, the handler returns 500 and the durable store is
unchanged: create persists nothing, and an update that reached its upload
step (document found, caller is the owner) leaves the store exactly as it
was. -/
theorem c1_upload_failure_aborts_write :
    (∀ (db : DB) (uid : Nat) (req : WriteReq),
        req.file.isSome = true →
        createPostHandler db uid req UploadOutcome.fail = (500, db))
  ∧ (∀ (db : DB) (uid : Nat) (id : String) (req : WriteReq) (post : BlogPost),
        req.file.isSome = true →
        findPost db id = Except.ok (some post) →
        post.author = uid →
        updatePostHandler db uid id req UploadOutcome.fail = (500, db)) := by
  constructor
  · intro db uid req hfile
    obtain ⟨f, hf⟩ := Option.isSome_iff_exists.mp hfile
    simp [createPostHandler, hf]
  · intro db uid id req post hfile hfind hown
    obtain ⟨f, hf⟩ := Option.isSome_iff_exists.mp hfile
    simp [updatePostHandler, hfind, hown, hf]

/-- Claim C1 witness: both parts at a concrete store, caller and request. -/
theorem c1_witness :
    (reqWithFile.file.isSome = true
      ∧ createPostHandler db0 1 reqWithFile UploadOutcome.fail = (500, db0))
  ∧ (findPost db0 pid0 = Except.ok (some post0)
      ∧ post0.author = 1
      ∧ updatePostHandler db0 1 pid0 reqWithFile UploadOutcome.fail = (500, db0)) :=
  ⟨⟨rfl, c1_upload_failure_aborts_write.1 db0 1 reqWithFile rfl⟩,
   ⟨rfl, rfl, c1_upload_failure_aborts_write.2 db0 1 pid0 reqWithFile post0 rfl rfl rfl⟩⟩

/-- Claim C2: an update or delete on an existing article by an
authenticated identity other than the owner returns 403 and leaves the
store unchanged. -/
theorem c2_non_owner_forbidden :
    ∀ (db : DB) (uidB : Nat) (id : String) (req : WriteReq) (upl : UploadOutcome)
      (post : BlogPost),
      findPost db id = Except.ok (some post) →
      post.author ≠ uidB →
      updatePostHandler db uidB id req upl = (403, db)
      ∧ deletePostHandler db uidB id = (403, db) := by
  intro db uidB id req upl post hfind hne
  constructor
  · simp [updatePostHandler, hfind, hne]
  · simp [deletePostHandler, hfind, hne]

/-- Claim C2 witness: identity 2 acting on the sample article of identity
1 is rejected with 403 and the store is untouched. -/
theorem c2_witness :
    findPost db0 pid0 = Except.ok (some post0)
  ∧ post0.author ≠ 2
  ∧ updatePostHandler db0 2 pid0 reqNoFile UploadOutcome.fail = (403, db0)
  ∧ deletePostHandler db0 2 pid0 = (403, db0) :=
  ⟨rfl, by decide,
   (c2_non_owner_forbidden db0 2 pid0 reqNoFile UploadOutcome.fail post0 rfl (by decide)).1,
   (c2_non_owner_forbidden db0 2 pid0 reqNoFile UploadOutcome.fail post0 rfl (by decide)).2⟩

/-- Claim C5: an update of an existing article by its owner that supplies
no new image buffer leaves the stored image reference byte identical to
what it was before. -/
theorem c5_image_preserved :
    ∀ (db : DB) (uid : Nat) (id : String) (req : WriteReq) (upl : UploadOutcome)
      (post : BlogPost),
      findPost db id = Except.ok (some post) →
      post.author = uid →
      req.file = none →
      ∃ post2 : BlogPost,
        findPost (updatePostHandler db uid id req upl).2 id = Except.ok (some post2)
        ∧ post2.imageUrl = post.imageUrl := by
  intro db uid id req upl post hfind hown hnof
  obtain ⟨hv, hfd⟩ := findPost_ok hfind
  have hstep : (updatePostHandler db uid id req upl).2 =
      { db with posts := updateFirst db.posts id (fun p =>
        { p with
          title := req.title.getD p.title,
          subtitle := req.subtitle.getD p.subtitle,
          content := req.content.getD p.content,
          imageUrl := post.imageUrl }) } := by
    simp [updatePostHandler, hfind, hown, hnof]
  have hstep2 : (updatePostHandler db uid id req upl).2.posts =
      updateFirst db.posts id (fun p =>
        { p with
          title := req.title.getD p.title,
          subtitle := req.subtitle.getD p.subtitle,
          content := req.content.getD p.content,
          imageUrl := post.imageUrl }) := by
    rw [hstep]
  have hvalid2 : validObjectId id = true := hv
  refine ⟨{ post with
      title := req.title.getD post.title,
      subtitle := req.subtitle.getD post.subtitle,
      content := req.content.getD post.content,
      imageUrl := post.imageUrl }, ?_, rfl⟩
  unfold findPost
  rw [if_pos hvalid2, hstep2]
  rw [find?_updateFirst db.posts id
        (fun p =>
          { p with
            title := req.title.getD p.title,
            subtitle := req.subtitle.getD p.subtitle,
            content := req.content.getD p.content,
            imageUrl := post.imageUrl }) (fun p => rfl)]
  rw [hfd]
  rfl

/-- Claim C5 witness: updating the sample article with new text and no file
keeps its stored image reference. -/
theorem c5_witness :
    findPost db0 pid0 = Except.ok (some post0)
  ∧ post0.author = 1
  ∧ reqNoFile.file = none
  ∧ ∃ post2 : BlogPost,
      findPost (updatePostHandler db0 1 pid0 reqNoFile UploadOutcome.fail).2 pid0 =
        Except.ok (some post2)
      ∧ post2.imageUrl = post0.imageUrl :=
  ⟨rfl, rfl, rfl,
   c5_image_preserved db0 1 pid0 reqNoFile UploadOutcome.fail post0 rfl rfl rfl⟩

/-- The save step either leaves the store unchanged or appends exactly one
article owned by the caller. -/
theorem savePost_owner (db : DB) (uid : Nat) (req : WriteReq) (url : String) :
    (savePost db uid req url).2 = db
    ∨ ∃ p : BlogPost,
        (savePost db uid req url).2.posts = db.posts ++ [p] ∧ p.author = uid := by
  unfold savePost
  by_cases h : (requiredOk req.title && requiredOk req.content) = true
  · right
    rw [if_pos h]
    exact ⟨_, rfl, rfl⟩
  · left
    rw [if_neg h]

/-- Claim C6: ownership is set at creation from the callers claims and
never changes afterwards: a create either writes nothing or appends one
article owned by the caller, and an update preserves the identifier and the
owner of every stored article (only the text fields and the image
reference of the matched article are rewritten). -/
theorem c6_owner_immutable :
    (∀ (db : DB) (uid : Nat) (req : WriteReq) (upl : UploadOutcome),
        (createPostHandler db uid req upl).2 = db
        ∨ ∃ p : BlogPost,
            (createPostHandler db uid req upl).2.posts = db.posts ++ [p]
            ∧ p.author = uid)
  ∧ (∀ (db : DB) (uid : Nat) (id : String) (req : WriteReq) (upl : UploadOutcome),
        ((updatePostHandler db uid id req upl).2.posts.map (fun p => (p._id, p.author)))
          = db.posts.map (fun p => (p._id, p.author))) := by
  constructor
  · intro db uid req upl
    cases hf : req.file with
    | none =>
        have : createPostHandler db uid req upl = savePost db uid req "" := by
          simp [createPostHandler, hf]
        rw [this]
        exact savePost_owner db uid req ""
    | some f =>
        cases upl with
        | fail => left; simp [createPostHandler, hf]
        | ok url =>
            have : createPostHandler db uid req (UploadOutcome.ok url) =
                savePost db uid req url := by
              simp [createPostHandler, hf]
            rw [this]
            exact savePost_owner db uid req url
  · intro db uid id req upl
    cases hfp : findPost db id with
    | error e => simp [updatePostHandler, hfp]
    | ok r =>
        cases r with
        | none => simp [updatePostHandler, hfp]
        | some post =>
            by_cases hauth : post.author = uid
            · cases hf : req.file with
              | none =>
                  have hstep : (updatePostHandler db uid id req upl).2 =
                      { db with posts := updateFirst db.posts id (fun p =>
                        { p with
                          title := req.title.getD p.title,
                          subtitle := req.subtitle.getD p.subtitle,
                          content := req.content.getD p.content,
                          imageUrl := post.imageUrl }) } := by
                    simp [updatePostHandler, hfp, hauth, hf]
                  rw [hstep]
                  exact map_updateFirst _ _ _ _ (fun p => rfl)
              | some f =>
                  cases upl with
                  | fail => simp [updatePostHandler, hfp, hauth, hf]
                  | ok url =>
                      have hstep : (updatePostHandler db uid id req (UploadOutcome.ok url)).2 =
                          { db with posts := updateFirst db.posts id (fun p =>
                            { p with
                              title := req.title.getD p.title,
                              subtitle := req.subtitle.getD p.subtitle,
                              content := req.content.getD p.content,
                              imageUrl := url }) } := by
                        simp [updatePostHandler, hfp, hauth, hf]
                      rw [hstep]
                      exact map_updateFirst _ _ _ _ (fun p => rfl)
            · simp [updatePostHandler, hfp, hauth]

/-- Claim C7: a signup with a fresh handle and contact pair succeeds with
201, and an immediately following login with the same contact and the same
original plaintext password succeeds with 200 and yields claims for the
same identity. -/
theorem c7_signup_then_login :
    ∀ (db : DB) (username email password : String) (env : Option String) (t1 t2 : Nat),
      (∀ u ∈ db.users, u.email ≠ email ∧ u.username ≠ username) →
      ∃ (db2 : DB) (tok1 tok2 : Token),
        signupHandler db username email password env t1 = (201, db2, some tok1)
        ∧ loginHandler db2 email password env t2 = (200, some tok2)
        ∧ tok2.claims = tok1.claims
        ∧ tok1.claims = ⟨db.nextUid, username⟩ := by
  intro db username email password env t1 t2 hfresh
  have hany : db.users.any (fun u => u.email == email || u.username == username) = false := by
    rw [List.any_eq_false]
    intro u hu
    obtain ⟨h1, h2⟩ := hfresh u hu
    simp [h1, h2]
  have hcond : ¬ (db.users.any (fun u => u.email == email || u.username == username) = true) := by
    simp [hany]
  have hsign : signupHandler db username email password env t1 =
      (201,
       { db with
         users := db.users ++ [⟨db.nextUid, username, email, bcryptHash password 10⟩],
         nextUid := db.nextUid + 1 },
       some (issueToken env ⟨db.nextUid, username⟩ t1)) := by
    unfold signupHandler
    rw [if_neg hcond]
  have hnone : db.users.find? (fun u => u.email == email) = none := by
    rw [List.find?_eq_none]
    intro u hu
    simp [(hfresh u hu).1]
  have hfind : (db.users ++ [(⟨db.nextUid, username, email, bcryptHash password 10⟩ : User)]).find?
      (fun u => u.email == email) = some ⟨db.nextUid, username, email, bcryptHash password 10⟩ := by
    rw [List.find?_append, hnone]
    simp [List.find?]
  have hlog : loginHandler
      { db with
        users := db.users ++ [⟨db.nextUid, username, email, bcryptHash password 10⟩],
        nextUid := db.nextUid + 1 } email password env t2 =
      (200, some (issueToken env ⟨db.nextUid, username⟩ t2)) := by
    unfold loginHandler
    rw [hfind]
    simp [bcryptCompare, bcryptHash]
  exact ⟨_, _, _, hsign, hlog, rfl, rfl⟩

/-- Claim C7 witness: a concrete signup on the empty store followed by a
login with the same contact and password. -/
theorem c7_witness :
    (∀ u ∈ (⟨[], [], 0, 0⟩ : DB).users, u.email ≠ "a@x.com" ∧ u.username ≠ "alice")
  ∧ ∃ (db2 : DB) (tok1 tok2 : Token),
      signupHandler ⟨[], [], 0, 0⟩ "alice" "a@x.com" "pw1" none 5 = (201, db2, some tok1)
      ∧ loginHandler db2 "a@x.com" "pw1" none 9 = (200, some tok2)
      ∧ tok2.claims = tok1.claims
      ∧ tok1.claims = ⟨0, "alice"⟩ :=
  ⟨by intro u hu; exact absurd hu (List.not_mem_nil u),
   c7_signup_then_login ⟨[], [], 0, 0⟩ "alice" "a@x.com" "pw1" none 5 9
     (by intro u hu; exact absurd hu (List.not_mem_nil u))⟩

/-- A write request whose required title is absent. -/
def reqMissingTitle : WriteReq := ⟨none, none, some "Body", none⟩

/-- Claim C9 counterexample: a create whose required title field is absent
is a validation failure, yet the handler reports it with status 500, not
400, because the mongoose validation error thrown by save is caught by the
generic catch of the handler. -/
theorem c9_counterexample :
    requiredOk reqMissingTitle.title = false
  ∧ (createPostHandler ⟨[], [], 0, 0⟩ 1 reqMissingTitle (UploadOutcome.ok "u")).1 = 500
  ∧ (500 : Nat) ≠ 400 :=
  ⟨rfl, rfl, by decide⟩

/-- Claim C9 as amended: a duplicate identity at signup is reported with
400, while malformed input on an article write (a missing required field)
is reported with 500 by the generic error handler. -/
theorem c9_validation_statuses :
    (∀ (db : DB) (username email password : String) (env : Option String) (now : Nat),
        db.users.any (fun u => u.email == email || u.username == username) = true →
        (signupHandler db username email password env now).1 = 400)
  ∧ (∀ (db : DB) (uid : Nat) (req : WriteReq) (upl : UploadOutcome),
        (requiredOk req.title = false ∨ requiredOk req.content = false) →
        req.file = none →
        createPostHandler db uid req upl = (500, db)) := by
  constructor
  · intro db username email password env now hdup
    unfold signupHandler
    rw [if_pos hdup]
  · intro db uid req upl hmiss hnof
    have hand : (requiredOk req.title && requiredOk req.content) = false := by
      rcases hmiss with h | h <;> simp [h]
    simp [createPostHandler, hnof, savePost, hand]

/-- Claim C9 witness: a duplicate signup at a concrete store gets 400, and
the concrete create missing its title gets 500 with nothing written. -/
theorem c9_witness :
    ((⟨[⟨0, "alice", "a@x.com", ⟨10, "pw1"⟩⟩], [], 1, 0⟩ : DB).users.any
        (fun u => u.email == "a@x.com" || u.username == "bob") = true
      ∧ (signupHandler ⟨[⟨0, "alice", "a@x.com", ⟨10, "pw1"⟩⟩], [], 1, 0⟩
          "bob" "a@x.com" "pw2" none 3).1 = 400)
  ∧ (requiredOk reqMissingTitle.title = false ∧ reqMissingTitle.file = none
      ∧ createPostHandler ⟨[], [], 0, 0⟩ 1 reqMissingTitle UploadOutcome.fail =
          (500, ⟨[], [], 0, 0⟩)) :=
  ⟨⟨rfl, c9_validation_statuses.1 ⟨[⟨0, "alice", "a@x.com", ⟨10, "pw1"⟩⟩], [], 1, 0⟩
      "bob" "a@x.com" "pw2" none 3 rfl⟩,
   ⟨rfl, rfl, c9_validation_statuses.2 ⟨[], [], 0, 0⟩ 1 reqMissingTitle UploadOutcome.fail
      (Or.inl rfl) rfl⟩⟩

/-- Claim C10: a get, update or delete with a malformed object identifier
makes the store lookup throw and the request returns 500 with the store
unchanged; a well formed identifier matching no record returns 404; and a
get returns 404 only for a well formed identifier matching no record. -/
theorem c10_malformed_id_is_500 :
    ∀ (db : DB) (uid : Nat) (id : String) (req : WriteReq) (upl : UploadOutcome),
      (validObjectId id = false →
        getPostHandler db id = 500
        ∧ updatePostHandler db uid id req upl = (500, db)
        ∧ deletePostHandler db uid id = (500, db))
      ∧ (validObjectId id = true →
          db.posts.find? (fun p => p._id == id) = none →
          getPostHandler db id = 404
          ∧ updatePostHandler db uid id req upl = (404, db)
          ∧ deletePostHandler db uid id = (404, db))
      ∧ (getPostHandler db id = 404 →
          validObjectId id = true ∧ db.posts.find? (fun p => p._id == id) = none) := by
  intro db uid id req upl
  refine ⟨?_, ?_, ?_⟩
  · intro hv
    have herr : findPost db id = Except.error "CastError" := by
      unfold findPost
      rw [if_neg (by simp [hv])]
    exact ⟨by simp [getPostHandler, herr],
           by simp [updatePostHandler, herr],
           by simp [deletePostHandler, herr]⟩
  · intro hv hnone
    have hok : findPost db id = Except.ok none := by
      unfold findPost
      rw [if_pos hv, hnone]
    exact ⟨by simp [getPostHandler, hok],
           by simp [updatePostHandler, hok],
           by simp [deletePostHandler, hok]⟩
  · intro h404
    by_cases hv : validObjectId id = true
    · refine ⟨hv, ?_⟩
      cases hfd : db.posts.find? (fun p => p._id == id) with
      | none => rfl
      | some p =>
          have hok : findPost db id = Except.ok (some p) := by
            unfold findPost
            rw [if_pos hv, hfd]
          have h200 : getPostHandler db id = 200 := by
            simp [getPostHandler, hok]
          rw [h200] at h404
          exact absurd h404 (by decide)
    · have herr : findPost db id = Except.error "CastError" := by
        unfold findPost
        rw [if_neg hv]
      have h500 : getPostHandler db id = 500 := by
        simp [getPostHandler, herr]
      rw [h500] at h404
      exact absurd h404 (by decide)

/-- Claim C10 witness: a malformed identifier gets 500 everywhere and a
well formed absent identifier gets 404 everywhere, at a concrete store. -/
theorem c10_witness :
    (validObjectId "zz!" = false
      ∧ getPostHandler db0 "zz!" = 500
      ∧ updatePostHandler db0 1 "zz!" reqNoFile UploadOutcome.fail = (500, db0)
      ∧ deletePostHandler db0 1 "zz!" = (500, db0))
  ∧ (validObjectId "bbbbbbbbbbbbbbbbbbbbbbbb" = true
      ∧ db0.posts.find? (fun p => p._id == "bbbbbbbbbbbbbbbbbbbbbbbb") = none
      ∧ getPostHandler db0 "bbbbbbbbbbbbbbbbbbbbbbbb" = 404
      ∧ updatePostHandler db0 1 "bbbbbbbbbbbbbbbbbbbbbbbb" reqNoFile UploadOutcome.fail =
          (404, db0)
      ∧ deletePostHandler db0 1 "bbbbbbbbbbbbbbbbbbbbbbbb" = (404, db0)) :=
  ⟨⟨rfl, (c10_malformed_id_is_500 db0 1 "zz!" reqNoFile UploadOutcome.fail).1 rfl⟩,
   ⟨rfl, rfl,
    (c10_malformed_id_is_500 db0 1 "bbbbbbbbbbbbbbbbbbbbbbbb" reqNoFile UploadOutcome.fail).2.1
      rfl rfl⟩⟩

end DevBlog
